import Mathlib

/-!
# Verification of `fair_equivalence_graphs/core.py`

A shallow embedding of the core module of the `fair-equivalence-graphs`
repository.  Emission series and signal arrays are modelled as `List ℚ`
(exact rationals standing for Python floats), the year axis as `List ℤ`,
and fallible Python operations (numpy indexing, float division, numpy
broadcasting, dict lookup) as `Except`-valued functions.  The external
FaIR climate simulator (`fair.forward.fair_scm`) is an opaque parameter
`sim`; the external root-finder (`scipy.optimize.bisect`) is modelled
from the spec.  Mutation of Python objects is made explicit by threading
the caller-owned inputs through state-passing variants (`..._st`), whose
final state records the value of every caller-owned object after the
call.
-/

namespace FairEquivalence

/-- Error conditions of the embedded Python code.  In Python, `lookupError`
and `boundsError` both surface as `IndexError` (a `LookupError` subclass):
`lookupError` marks the `np.where(...)[0][0]` failure when the year is
absent, `boundsError` an out-of-range integer index into an array.
`divisionError` is `ZeroDivisionError`, `broadcastError` the `ValueError`
numpy raises on incompatible shapes, and `bracketError` the `ValueError`
`scipy.optimize.bisect` raises when `f(a)` and `f(b)` share a sign. -/
inductive PErr where
  | lookupError
  | boundsError
  | divisionError
  | broadcastError
  | bracketError
deriving DecidableEq, Repr

/-- The per-component emission series of a FaIR SSP scenario object, as
read by the core: `scenario.Emissions.year`, `.co2`, `.co2_fossil`,
`.co2_land`.  The year axis is a list of integers; the emission series
are lists of rationals, aligned 1:1 with the year axis in well-formed
scenarios. -/
structure EmissionsData where
  year : List ℤ
  co2 : List ℚ
  co2_fossil : List ℚ
  co2_land : List ℚ
deriving DecidableEq, Repr

/-- A FaIR scenario object: the core only reads `scenario.Emissions`. -/
structure Scenario where
  «Emissions» : EmissionsData
deriving DecidableEq, Repr

/-- `np.where(arr == v)[0]`: the list of indices at which `arr` equals
`v`, in increasing order. -/
def npWhereEq (arr : List ℤ) (v : ℤ) : List ℕ :=
  (List.range arr.length).filter (fun i => arr.getD i 0 = v)

/-- Python indexing `xs[0]` on the result of `np.where`: raises
`IndexError` (a `LookupError` subclass) when the index list is empty. -/
def firstIndex (idxs : List ℕ) : Except PErr ℕ :=
  match idxs with
  | [] => .error .lookupError
  | i :: _ => .ok i

/-- Normalisation of a (possibly negative) integer index into a numpy
array of length `n`: indices in `[0, n)` are used as is, indices in
`[-n, 0)` wrap to `n + k`, anything else raises `IndexError`. -/
def npNormIdx (n : ℕ) (k : ℤ) : Except PErr ℕ :=
  if 0 ≤ k ∧ k < (n : ℤ) then .ok k.toNat
  else if -(n : ℤ) ≤ k ∧ k < 0 then .ok (k + (n : ℤ)).toNat
  else .error .boundsError

/-- `a[k] += v` on a 1-D numpy array: read-modify-write at the
normalised index. -/
def npIAdd (a : List ℚ) (k : ℤ) (v : ℚ) : Except PErr (List ℚ) := do
  let i ← npNormIdx a.length k
  .ok (a.set i (a.getD i 0 + v))

/-- Python float division `x / y`: `ZeroDivisionError` when `y = 0`. -/
def pyDiv (x y : ℚ) : Except PErr ℚ :=
  if y = 0 then .error .divisionError else .ok (x / y)

/-- State-passing embedding of `get_perturbations` (core.py lines 45-55).
The caller-owned `scenario` is threaded through and returned with the
result, recording its value after the call; the three output arrays are
freshly allocated (`np.zeros_like`).  Statements appear in source order:
the year lookup, the three zero allocations, the three in-place adds
(storage, re-emission, then justified, whose right-hand side divides by
`equivalence_ratio` before the index write). -/
def get_perturbations_st (scenario : Scenario) (temp_yr : ℤ) (temp_length : ℤ)
    (temp_magnitude : ℚ) (equivalence_ratio : ℚ) :
    Except PErr (Scenario × (List ℚ × List ℚ × List ℚ)) := do
  let yr_idx ← firstIndex (npWhereEq scenario.Emissions.year temp_yr)
  let storage := List.replicate scenario.Emissions.co2.length (0 : ℚ)
  let reemission := List.replicate scenario.Emissions.co2.length (0 : ℚ)
  let justified := List.replicate scenario.Emissions.co2.length (0 : ℚ)
  let storage ← npIAdd storage (yr_idx : ℤ) (-1 * temp_magnitude)
  let reemission ← npIAdd reemission ((yr_idx : ℤ) + temp_length) temp_magnitude
  let inv ← pyDiv 1 equivalence_ratio
  let justified ← npIAdd justified (yr_idx : ℤ) (temp_magnitude * inv)
  .ok (scenario, (storage, reemission, justified))

/-- `get_perturbations(scenario, temp_yr, temp_length, temp_magnitude,
equivalence_ratio) -> (storage, reemission, justified)`. -/
def get_perturbations (scenario : Scenario) (temp_yr : ℤ) (temp_length : ℤ)
    (temp_magnitude : ℚ) (equivalence_ratio : ℚ) :
    Except PErr (List ℚ × List ℚ × List ℚ) :=
  (get_perturbations_st scenario temp_yr temp_length temp_magnitude
    equivalence_ratio).map Prod.snd

/-- numpy element-wise addition of two 1-D arrays, with 1-D broadcasting:
arrays of equal length add pointwise, a length-1 array broadcasts against
the other, and any other shape combination raises `ValueError`. -/
def npAdd (a b : List ℚ) : Except PErr (List ℚ) :=
  if a.length = b.length then .ok (List.zipWith (· + ·) a b)
  else if a.length = 1 then .ok (b.map (fun x => a.headD 0 + x))
  else if b.length = 1 then .ok (a.map (fun x => x + b.headD 0))
  else .error .broadcastError

/-- One FaIR run's outputs: `C, F, T = fair.forward.fair_scm(...)`. -/
structure FairResult where
  atm_c : List ℚ
  rf : List ℚ
  temp : List ℚ
deriving DecidableEq, Repr

/-- The type of the external climate simulator `fair.forward.fair_scm`,
as the core calls it: a pure function of the emissions series and the
`other_rf` series (the flags `useMultigas=False`, `gir_carbon_cycle=False`
are fixed constants at the call site and are absorbed into `sim`). -/
def SimFn : Type := List ℚ → List ℚ → FairResult

/-- State-passing embedding of `run_fair` (core.py lines 103-129).  The
caller-owned scenario and the three perturbation arrays are threaded
through and returned with the result.  `default_emissions` is the fresh
array `co2_land + co2_fossil`; each experimental series is built by
`copy.copy(default_emissions) + ...` with left-associated numpy `+`
(`copy.copy` copies the array, so on values it is the identity); the
dict literal fixes the five keys in order, and the `for` loop fills
`fair_results` (a `defaultdict(dict)`) with one simulator result per key,
in the same order, passing `other_rf = np.zeros_like(emissions)`. -/
def run_fair_st (sim : SimFn) (scenario : Scenario)
    (storage reemission justified : List ℚ) :
    Except PErr ((Scenario × List ℚ × List ℚ × List ℚ) ×
      (List (String × List ℚ) × List (String × FairResult))) := do
  let default_emissions ← npAdd scenario.Emissions.co2_land
    scenario.Emissions.co2_fossil
  let permanent ← npAdd default_emissions storage
  let temporary ← do
    let t ← npAdd default_emissions storage
    npAdd t reemission
  let offset ← do
    let t ← npAdd default_emissions storage
    let t ← npAdd t reemission
    npAdd t justified
  let justifiedScen ← npAdd default_emissions justified
  let experimental_scenarios : List (String × List ℚ) :=
    [("default", default_emissions), ("permanent", permanent),
     ("temporary", temporary), ("offset", offset),
     ("justified", justifiedScen)]
  let fair_results : List (String × FairResult) :=
    experimental_scenarios.map (fun p =>
      (p.1, sim p.2 (List.replicate p.2.length 0)))
  .ok ((scenario, storage, reemission, justified),
    (experimental_scenarios, fair_results))

/-- `run_fair(scenario, storage, reemission, justified) ->
(experimental_scenarios, fair_results)`. -/
def run_fair (sim : SimFn) (scenario : Scenario)
    (storage reemission justified : List ℚ) :
    Except PErr (List (String × List ℚ) × List (String × FairResult)) :=
  (run_fair_st sim scenario storage reemission justified).map Prod.snd

/-- Python `d[k]` on a dict: `KeyError` (a `LookupError` subclass) when
the key is absent.  (`fair_results` is a `defaultdict`, but the core only
reads keys it has written, so the default branch is never taken.) -/
def dictGet {α : Type} (d : List (String × α)) (k : String) : Except PErr α :=
  match d.lookup k with
  | some v => .ok v
  | none => .error .lookupError

/-- Python slice normalisation for `l[i:j]` (step 1): negative endpoints
count from the end, then both clamp into `[0, n]`. -/
def pySliceNorm (n : ℕ) (k : ℤ) : ℕ :=
  if k < 0 then (max (k + (n : ℤ)) 0).toNat else min k.toNat n

/-- Python slicing `l[i:j]`: the elements from the normalised start to
the normalised stop, empty when start ≥ stop; never raises. -/
def pySlice (l : List ℚ) (i j : ℤ) : List ℚ :=
  (l.take (pySliceNorm l.length j)).drop (pySliceNorm l.length i)

/-- Embedding of `compare_rf` (core.py lines 161-170): rebuild the
perturbations at the trial ratio, rerun FaIR, look up the year index
again, and return the difference of the two radiative-forcing sums over
the window `[yr_idx : yr_idx + time_horizon]`. -/
def compare_rf (sim : SimFn) (equivalence_ratio : ℚ) (scenario : Scenario)
    (temp_yr : ℤ) (temp_length : ℤ) (temp_magnitude : ℚ)
    (time_horizon : ℤ) : Except PErr ℚ := do
  let (storage, reemission, justified) ← get_perturbations scenario temp_yr
    temp_length temp_magnitude equivalence_ratio
  let (_, fair_results) ← run_fair sim scenario storage reemission justified
  let yr_idx ← firstIndex (npWhereEq scenario.Emissions.year temp_yr)
  let rd ← dictGet fair_results "default"
  let ro ← dictGet fair_results "offset"
  let rf_d := (pySlice rd.rf (yr_idx : ℤ) ((yr_idx : ℤ) + time_horizon)).sum
  let rf_o := (pySlice ro.rf (yr_idx : ℤ) ((yr_idx : ℤ) + time_horizon)).sum
  .ok (rf_d - rf_o)

/-- Iteration core of the bisection loop: halve the bracket `[a, b]`
(`fa = f a` already computed), keeping the half on which the sign
changes, for at most `fuel` steps. -/
def bisectLoop (f : ℚ → Except PErr ℚ) : ℕ → ℚ → ℚ → ℚ → Except PErr ℚ
  | 0, a, b, _ => .ok ((a + b) / 2)
  | fuel + 1, a, b, fa => do
    let m := (a + b) / 2
    let fm ← f m
    if fm = 0 then .ok m
    else if fa * fm < 0 then bisectLoop f fuel a m fa
    else bisectLoop f fuel m b fm

/-- Modelled from the spec: the external root-finder
`scipy.optimize.bisect` (not part of this repository).  Per the spec it
is "a bracketed scalar root-finder `bisect(f, lo, hi)`, raising on
non-bracketing input": it evaluates `f` at both endpoints, returns an
endpoint at which `f` is exactly zero, raises a `BracketError` when the
endpoint values share a (strict) sign, and otherwise bisects until a
zero or the iteration cap; errors raised by `f` propagate. -/
def bisect (f : ℚ → Except PErr ℚ) (lo hi : ℚ) (maxiter : ℕ) :
    Except PErr ℚ := do
  let fa ← f lo
  let fb ← f hi
  if 0 < fa * fb then .error .bracketError
  else if fa = 0 then .ok lo
  else if fb = 0 then .ok hi
  else bisectLoop f maxiter lo hi fa

/-- Embedding of `get_equivalence_ratio` (core.py lines 200-205):
bisection of `compare_rf` over the ratio, with the fixed bracket
`[1, 1000]` and the root-finder's default iteration cap of 100. -/
def get_equivalence_ratio (sim : SimFn) (scenario : Scenario)
    (temp_yr : ℤ) (temp_length : ℤ) (temp_magnitude : ℚ)
    (time_horizon : ℤ) : Except PErr ℚ :=
  bisect (fun r => compare_rf sim r scenario temp_yr temp_length
    temp_magnitude time_horizon) 1 1000 100

/-! ### Concrete data for witnesses

A small well-formed scenario (three years, aligned series) and a simple
deterministic simulator whose radiative forcing equals its emissions
input, used to instantiate the theorems below at concrete inputs. -/

/-- A three-year scenario: years 2000-2002, zero `co2`, unit fossil
emissions, zero land-use emissions. -/
def wScen : Scenario :=
  ⟨⟨[2000, 2001, 2002], [0, 0, 0], [1, 1, 1], [0, 0, 0]⟩⟩

/-- A concrete stand-in for the external simulator: every output series
equals the emissions input. -/
def wSim : SimFn := fun em _ => ⟨em, em, em⟩

/-- The storage perturbation of `wScen` at year 2000, magnitude 1. -/
def wSt : List ℚ := [-1, 0, 0]

/-- The re-emission perturbation of `wScen` one year later. -/
def wRe : List ℚ := [0, 1, 0]

/-- The justified perturbation of `wScen` at ratio 1. -/
def wJu : List ℚ := [1, 0, 0]

/-- The simulator output of `wSim` on the default series of `wScen`. -/
def wRd : FairResult := ⟨[1, 1, 1], [1, 1, 1], [1, 1, 1]⟩

/-- The simulator output of `wSim` on the offset series of `wScen` with
the perturbations `wSt`, `wRe`, `wJu`. -/
def wRo : FairResult := ⟨[1, 2, 1], [1, 2, 1], [1, 2, 1]⟩

/-- The experimental-scenarios mapping `run_fair` builds from `wScen`
and `wSt`, `wRe`, `wJu`. -/
def wEs : List (String × List ℚ) :=
  [("default", [1, 1, 1]), ("permanent", [0, 1, 1]),
   ("temporary", [0, 2, 1]), ("offset", [1, 2, 1]),
   ("justified", [2, 1, 1])]

/-- The FaIR-results mapping of the same call, under `wSim`. -/
def wFr : List (String × FairResult) :=
  [("default", wRd), ("permanent", ⟨[0, 1, 1], [0, 1, 1], [0, 1, 1]⟩),
   ("temporary", ⟨[0, 2, 1], [0, 2, 1], [0, 2, 1]⟩), ("offset", wRo),
   ("justified", ⟨[2, 1, 1], [2, 1, 1], [2, 1, 1]⟩)]

/-! ### Helper lemmas -/

/-- `Except` bind on a success reduces to the continuation. -/
@[simp] theorem okBind {ε α β : Type} (a : α) (f : α → Except ε β) :
    (Except.ok a >>= f : Except ε β) = f a := rfl

/-- `Except` bind on an error short-circuits. -/
@[simp] theorem errBind {ε α β : Type} (e : ε) (f : α → Except ε β) :
    ((Except.error e : Except ε α) >>= f) = Except.error e := rfl

/-- `Except.map` on a success. -/
@[simp] theorem mapOk {ε α β : Type} (g : α → β) (a : α) :
    (Except.ok a : Except ε α).map g = Except.ok (g a) := rfl

/-- `Except.map` on an error. -/
@[simp] theorem mapErr {ε α β : Type} (g : α → β) (e : ε) :
    (Except.error e : Except ε α).map g = Except.error e := rfl

/-- The head of `np.where(arr == v)[0]` is a valid index into `arr`. -/
theorem npWhereEq_head_lt {arr : List ℤ} {v : ℤ} {i : ℕ} {rest : List ℕ}
    (h : npWhereEq arr v = i :: rest) : i < arr.length := by
  have hm : i ∈ npWhereEq arr v := by rw [h]; exact List.mem_cons_self i rest
  unfold npWhereEq at hm
  rw [List.mem_filter] at hm
  exact List.mem_range.mp hm.1

/-- `getD` on a replicated-zero array. -/
theorem getD_replicate (n j : ℕ) : (List.replicate n (0 : ℚ)).getD j 0 = 0 := by
  rw [List.getD_eq_getElem?_getD, List.getElem?_replicate]
  split <;> rfl

/-- An all-zero array written once at `i < n` holds `v` at `i` and `0`
everywhere else. -/
theorem getD_replicate_set {n i : ℕ} (j : ℕ) (v : ℚ) (hi : i < n) :
    ((List.replicate n (0 : ℚ)).set i v).getD j 0 =
      if j = i then v else 0 := by
  rw [List.getD_eq_getElem?_getD, List.getElem?_set]
  by_cases hj : i = j
  · subst hj; simp [hi]
  · rw [if_neg hj, if_neg (Ne.symm hj), List.getElem?_replicate]
    split <;> rfl

/-- The sum of an all-zero array written once at `i < n` is the written
value. -/
theorem sum_replicate_set {n i : ℕ} (v : ℚ) (hi : i < n) :
    ((List.replicate n (0 : ℚ)).set i v).sum = v := by
  rw [List.sum_set]
  simp [List.take_replicate, List.drop_replicate, hi]

/-! ### Claims -/

/-- **C1.** For every scenario whose year axis contains `temp_yr` at
index `i` (with year axis and `co2` series aligned), every non-negative
`temp_length` with `i + temp_length` within bounds, every
`temp_magnitude`, and every nonzero `equivalence_ratio`,
`get_perturbations` returns three arrays of the scenario's length with
`storage[i] = -temp_magnitude`,
`reemission[i + temp_length] = temp_magnitude`,
`justified[i] = temp_magnitude / equivalence_ratio`, every other entry
zero, and the three sums `-temp_magnitude`, `temp_magnitude`,
`temp_magnitude / equivalence_ratio`. -/
theorem get_perturbations_valid_inputs
    (s : Scenario) (temp_yr temp_length : ℤ)
    (temp_magnitude equivalence_ratio : ℚ) (i : ℕ) (rest : List ℕ)
    (hfound : npWhereEq s.Emissions.year temp_yr = i :: rest)
    (hlen : s.Emissions.year.length = s.Emissions.co2.length)
    (hL : 0 ≤ temp_length)
    (hb : (i : ℤ) + temp_length < (s.Emissions.co2.length : ℤ))
    (hr : equivalence_ratio ≠ 0) :
    ∃ storage reemission justified,
      get_perturbations s temp_yr temp_length temp_magnitude
          equivalence_ratio = .ok (storage, reemission, justified) ∧
      storage.length = s.Emissions.co2.length ∧
      reemission.length = s.Emissions.co2.length ∧
      justified.length = s.Emissions.co2.length ∧
      (∀ j : ℕ, storage.getD j 0 = if j = i then -temp_magnitude else 0) ∧
      (∀ j : ℕ, reemission.getD j 0 =
        if (j : ℤ) = (i : ℤ) + temp_length then temp_magnitude else 0) ∧
      (∀ j : ℕ, justified.getD j 0 =
        if j = i then temp_magnitude / equivalence_ratio else 0) ∧
      storage.sum = -temp_magnitude ∧
      reemission.sum = temp_magnitude ∧
      justified.sum = temp_magnitude / equivalence_ratio := by
  have hin : i < s.Emissions.year.length := npWhereEq_head_lt hfound
  have hiN : i < s.Emissions.co2.length := hlen ▸ hin
  set n := s.Emissions.co2.length with hn
  set k : ℕ := ((i : ℤ) + temp_length).toNat with hk
  have hkz : ((i : ℤ) + temp_length) = (k : ℤ) := by omega
  have hkN : k < n := by omega
  have hrun : get_perturbations s temp_yr temp_length temp_magnitude
      equivalence_ratio = .ok
        ((List.replicate n 0).set i
          ((List.replicate n (0:ℚ)).getD i 0 + -1 * temp_magnitude),
         (List.replicate n 0).set k
          ((List.replicate n (0:ℚ)).getD k 0 + temp_magnitude),
         (List.replicate n 0).set i
          ((List.replicate n (0:ℚ)).getD i 0 +
            temp_magnitude * (1 / equivalence_ratio))) := by
    unfold get_perturbations get_perturbations_st npIAdd npNormIdx pyDiv
      firstIndex
    rw [hfound]
    simp only [okBind, List.length_replicate, ← hn]
    rw [if_pos ⟨by omega, by omega⟩]
    simp only [Int.toNat_natCast, okBind]
    rw [if_pos ⟨by omega, by omega⟩, if_neg hr]
    simp only [okBind, ← hk, mapOk]
  refine ⟨_, _, _, hrun, ?_, ?_, ?_, ?_, ?_, ?_, ?_, ?_, ?_⟩
  · simp
  · simp
  · simp
  · intro j
    rw [getD_replicate n i, zero_add, getD_replicate_set j _ hiN]
    simp [neg_one_mul]
  · intro j
    rw [getD_replicate n k, zero_add, getD_replicate_set j _ hkN]
    by_cases hjk : j = k
    · rw [if_pos hjk, if_pos (by omega)]
    · rw [if_neg hjk, if_neg (by omega)]
  · intro j
    rw [getD_replicate n i, zero_add, getD_replicate_set j _ hiN]
    rw [mul_one_div]
  · rw [getD_replicate n i, zero_add, sum_replicate_set _ hiN, neg_one_mul]
  · rw [getD_replicate n k, zero_add, sum_replicate_set _ hkN]
  · rw [getD_replicate n i, zero_add, sum_replicate_set _ hiN, mul_one_div]

/-- Witness for C1: the concrete scenario `wScen` with
`temp_yr = 2000` (index 0), `temp_length = 1`, `temp_magnitude = 1`,
`equivalence_ratio = 2`. -/
theorem get_perturbations_valid_inputs_witness :
    ∃ storage reemission justified,
      get_perturbations wScen 2000 1 1 2 =
        .ok (storage, reemission, justified) ∧
      storage.length = wScen.Emissions.co2.length ∧
      reemission.length = wScen.Emissions.co2.length ∧
      justified.length = wScen.Emissions.co2.length ∧
      (∀ j : ℕ, storage.getD j 0 = if j = 0 then -1 else 0) ∧
      (∀ j : ℕ, reemission.getD j 0 =
        if (j : ℤ) = (0 : ℤ) + 1 then 1 else 0) ∧
      (∀ j : ℕ, justified.getD j 0 = if j = 0 then 1 / 2 else 0) ∧
      storage.sum = -1 ∧ reemission.sum = 1 ∧ justified.sum = 1 / 2 :=
  get_perturbations_valid_inputs wScen 2000 1 1 2 0 [] (by rfl) (by rfl)
    (by norm_num) (by norm_num [wScen]) (by norm_num)

/-- When `v` occurs nowhere in `arr`, `np.where(arr == v)[0]` is empty. -/
theorem npWhereEq_eq_nil {arr : List ℤ} {v : ℤ} (h : v ∉ arr) :
    npWhereEq arr v = [] := by
  unfold npWhereEq
  rw [List.filter_eq_nil_iff]
  intro a ha
  simp only [decide_eq_true_eq]
  intro heq
  have haL : a < arr.length := List.mem_range.mp ha
  rw [List.getD_eq_getElem?_getD, List.getElem?_eq_getElem haL] at heq
  exact h (heq ▸ List.getElem_mem haL)

/-- **C6.** For every scenario and every `temp_yr` absent from the
scenario's year axis, `get_perturbations` fails with the `LookupError`
condition (the `IndexError` from `np.where(...)[0][0]`) and returns no
arrays. -/
theorem get_perturbations_absent_year
    (s : Scenario) (temp_yr temp_length : ℤ)
    (temp_magnitude equivalence_ratio : ℚ)
    (h : temp_yr ∉ s.Emissions.year) :
    get_perturbations s temp_yr temp_length temp_magnitude
      equivalence_ratio = .error .lookupError := by
  unfold get_perturbations get_perturbations_st firstIndex
  rw [npWhereEq_eq_nil h]
  rfl

/-- Witness for C6: the year 1999 is absent from `wScen`'s year axis. -/
theorem get_perturbations_absent_year_witness :
    get_perturbations wScen 1999 1 1 2 = .error .lookupError :=
  get_perturbations_absent_year wScen 1999 1 1 2 (by decide)

/-- **C7.** For every otherwise-valid input (`temp_yr` found on the
aligned year axis, re-emission index in range) with `equivalence_ratio`
exactly zero, `get_perturbations` fails with the division-by-zero
condition (`ZeroDivisionError`) rather than returning arrays. -/
theorem get_perturbations_zero_ratio
    (s : Scenario) (temp_yr temp_length : ℤ) (temp_magnitude : ℚ)
    (i : ℕ) (rest : List ℕ)
    (hfound : npWhereEq s.Emissions.year temp_yr = i :: rest)
    (hlen : s.Emissions.year.length = s.Emissions.co2.length)
    (hL : 0 ≤ temp_length)
    (hb : (i : ℤ) + temp_length < (s.Emissions.co2.length : ℤ)) :
    get_perturbations s temp_yr temp_length temp_magnitude 0 =
      .error .divisionError := by
  have hin : i < s.Emissions.year.length := npWhereEq_head_lt hfound
  have hiN : i < s.Emissions.co2.length := hlen ▸ hin
  unfold get_perturbations get_perturbations_st npIAdd npNormIdx pyDiv
    firstIndex
  rw [hfound]
  simp only [okBind, List.length_replicate]
  rw [if_pos ⟨by omega, by omega⟩]
  simp only [Int.toNat_natCast, okBind]
  rw [if_pos ⟨by omega, by omega⟩]
  simp

/-- Witness for C7: `wScen`, `temp_yr = 2000` (index 0),
`temp_length = 1`, ratio exactly zero. -/
theorem get_perturbations_zero_ratio_witness :
    get_perturbations wScen 2000 1 1 0 = .error .divisionError :=
  get_perturbations_zero_ratio wScen 2000 1 1 0 [] (by rfl) (by rfl)
    (by norm_num) (by norm_num [wScen])

/-- **Counterexample to C5 as stated.**  In `wScen` the year 2000 is the
first element of the year axis and `temp_length = 1` is nonzero, yet
`get_perturbations` returns three arrays successfully instead of raising
a bounds condition: the re-emission index `0 + 1` is simply in range. -/
theorem get_perturbations_first_year_counterexample :
    wScen.Emissions.year.headD 0 = 2000 ∧ (1 : ℤ) ≠ 0 ∧
    get_perturbations wScen 2000 1 1 2 =
      .ok ([-1, 0, 0], [0, 1, 0], [1/2, 0, 0]) := by
  refine ⟨rfl, by norm_num, ?_⟩
  norm_num [get_perturbations, get_perturbations_st, npWhereEq, firstIndex,
    npIAdd, npNormIdx, pyDiv, wScen, List.range_succ, List.replicate_succ,
    List.set_cons_zero, List.set_cons_succ]

/-- **C5 (amended).**  Whenever `temp_yr` is found at the *last* index
of the (aligned) year axis and `temp_length` is positive,
`get_perturbations` raises the bounds condition: the re-emission index
lies past the end of the array, which numpy neither wraps nor clips.
(At the *first* element the claim as stated fails: a positive
`temp_length` smaller than the array length indexes in range and the
call succeeds.) -/
theorem get_perturbations_last_year_bounds
    (s : Scenario) (temp_yr temp_length : ℤ)
    (temp_magnitude equivalence_ratio : ℚ) (i : ℕ) (rest : List ℕ)
    (hfound : npWhereEq s.Emissions.year temp_yr = i :: rest)
    (hlen : s.Emissions.year.length = s.Emissions.co2.length)
    (hlast : i + 1 = s.Emissions.year.length)
    (hL : 0 < temp_length) :
    get_perturbations s temp_yr temp_length temp_magnitude
      equivalence_ratio = .error .boundsError := by
  have hin : i < s.Emissions.year.length := npWhereEq_head_lt hfound
  have hiN : i < s.Emissions.co2.length := hlen ▸ hin
  unfold get_perturbations get_perturbations_st npIAdd npNormIdx pyDiv
    firstIndex
  rw [hfound]
  simp only [okBind, List.length_replicate]
  rw [if_pos ⟨by omega, by omega⟩]
  simp only [Int.toNat_natCast, okBind]
  rw [if_neg (by omega), if_neg (by omega)]
  simp only [errBind, mapErr]

/-- Witness for the amended C5: `wScen`, `temp_yr = 2002` (the last
year, index 2), `temp_length = 1`. -/
theorem get_perturbations_last_year_bounds_witness :
    get_perturbations wScen 2002 1 1 2 = .error .boundsError :=
  get_perturbations_last_year_bounds wScen 2002 1 1 2 2 [] (by rfl)
    (by rfl) (by rfl) (by norm_num)

/-- **C10.**  With `temp_yr` found at index `i` of the aligned year axis
and a nonzero ratio, `get_perturbations` raises the out-of-bounds
condition if and only if `i + temp_length ≥ len(scenario)` or
`i + temp_length < -len(scenario)`; and for `-len ≤ i + temp_length < 0`
it returns normally, silently placing the re-emission pulse at the
wrapped index `i + temp_length + len`. -/
theorem get_perturbations_bounds_iff_wrap
    (s : Scenario) (temp_yr temp_length : ℤ)
    (temp_magnitude equivalence_ratio : ℚ) (i : ℕ) (rest : List ℕ)
    (hfound : npWhereEq s.Emissions.year temp_yr = i :: rest)
    (hlen : s.Emissions.year.length = s.Emissions.co2.length)
    (hr : equivalence_ratio ≠ 0) :
    (get_perturbations s temp_yr temp_length temp_magnitude
        equivalence_ratio = .error .boundsError ↔
      ((s.Emissions.co2.length : ℤ) ≤ (i : ℤ) + temp_length ∨
        (i : ℤ) + temp_length < -(s.Emissions.co2.length : ℤ))) ∧
    (-(s.Emissions.co2.length : ℤ) ≤ (i : ℤ) + temp_length →
      (i : ℤ) + temp_length < 0 →
      ∃ storage reemission justified,
        get_perturbations s temp_yr temp_length temp_magnitude
          equivalence_ratio = .ok (storage, reemission, justified) ∧
        reemission.getD
          ((i : ℤ) + temp_length + (s.Emissions.co2.length : ℤ)).toNat 0 =
          temp_magnitude) := by
  have hin : i < s.Emissions.year.length := npWhereEq_head_lt hfound
  have hiN : i < s.Emissions.co2.length := hlen ▸ hin
  set n := s.Emissions.co2.length with hn
  unfold get_perturbations get_perturbations_st npIAdd npNormIdx pyDiv
    firstIndex
  rw [hfound]
  simp only [okBind, List.length_replicate, ← hn]
  rw [if_pos ⟨by omega, by omega⟩]
  simp only [Int.toNat_natCast, okBind, if_neg hr]
  by_cases h1 : 0 ≤ (i : ℤ) + temp_length ∧ (i : ℤ) + temp_length < (n : ℤ)
  · rw [if_pos h1]
    simp only [okBind, mapOk]
    constructor
    · constructor
      · intro hcontra; exact absurd hcontra (by simp)
      · intro hcond; exact absurd hcond (by omega)
    · intro hneg hlt; exact absurd hlt (by omega)
  · by_cases h2 : -(n : ℤ) ≤ (i : ℤ) + temp_length ∧
        (i : ℤ) + temp_length < 0
    · rw [if_neg h1, if_pos h2]
      simp only [okBind, mapOk]
      constructor
      · constructor
        · intro hcontra; exact absurd hcontra (by simp)
        · intro hcond; exact absurd hcond (by omega)
      · intro hneg hlt
        refine ⟨_, _, _, rfl, ?_⟩
        have hk : ((i : ℤ) + temp_length + (n : ℤ)).toNat < n := by omega
        rw [getD_replicate_set _ _ hk, if_pos rfl, getD_replicate, zero_add]
    · rw [if_neg h1, if_neg h2]
      simp only [errBind, mapErr]
      constructor
      · constructor
        · intro _; omega
        · intro _; trivial
      · intro hneg hlt; exact absurd h2 (by omega)

/-- Witness for C10: `wScen`, `temp_yr = 2001` (index 1),
`temp_length = -2`: the re-emission index `-1` wraps to `2`, the call
succeeds, and the bounds condition is (correctly) not raised. -/
theorem get_perturbations_bounds_iff_wrap_witness :
    (get_perturbations wScen 2001 (-2) 1 2 = .error .boundsError ↔
      ((wScen.Emissions.co2.length : ℤ) ≤ (1 : ℤ) + (-2) ∨
        (1 : ℤ) + (-2) < -(wScen.Emissions.co2.length : ℤ))) ∧
    (-(wScen.Emissions.co2.length : ℤ) ≤ (1 : ℤ) + (-2) →
      (1 : ℤ) + (-2) < 0 →
      ∃ storage reemission justified,
        get_perturbations wScen 2001 (-2) 1 2 =
          .ok (storage, reemission, justified) ∧
        reemission.getD
          ((1 : ℤ) + (-2) + (wScen.Emissions.co2.length : ℤ)).toNat 0 = 1) :=
  get_perturbations_bounds_iff_wrap wScen 2001 (-2) 1 2 1 [] (by rfl)
    (by rfl) (by norm_num)

/-- numpy addition of equal-length arrays is pointwise addition. -/
theorem npAdd_eq {a b : List ℚ} (h : a.length = b.length) :
    npAdd a b = .ok (List.zipWith (· + ·) a b) := by
  simp [npAdd, h]

/-- A successful `Except` bind factors through a successful first step. -/
theorem bind_ok_ex {ε α β : Type} {x : Except ε α} {f : α → Except ε β}
    {b : β} (h : x >>= f = .ok b) : ∃ a, x = .ok a ∧ f a = .ok b := by
  cases x with
  | error e => rw [errBind] at h; exact absurd h (by simp)
  | ok a => exact ⟨a, rfl, h⟩

/-- **C2.**  For every scenario with aligned baseline series and every
triple of perturbation arrays of the scenario's length, the
experimental-scenarios mapping returned by `run_fair` is, element-wise:
`default` = fossil + land-use baseline CO₂, `permanent` = default +
storage, `temporary` = default + storage + reemission, `offset` =
default + storage + reemission + justified, `justified` = default +
justified. -/
theorem run_fair_scenario_composition
    (sim : SimFn) (s : Scenario) (storage reemission justified : List ℚ)
    (hf : s.Emissions.co2_land.length = s.Emissions.co2_fossil.length)
    (hs : storage.length = s.Emissions.co2_fossil.length)
    (hre : reemission.length = s.Emissions.co2_fossil.length)
    (hj : justified.length = s.Emissions.co2_fossil.length) :
    ∃ fair_results,
      run_fair sim s storage reemission justified = .ok
        ([("default",
            List.zipWith (· + ·) s.Emissions.co2_fossil s.Emissions.co2_land),
          ("permanent",
            List.zipWith (· + ·)
              (List.zipWith (· + ·) s.Emissions.co2_fossil
                s.Emissions.co2_land) storage),
          ("temporary",
            List.zipWith (· + ·)
              (List.zipWith (· + ·)
                (List.zipWith (· + ·) s.Emissions.co2_fossil
                  s.Emissions.co2_land) storage) reemission),
          ("offset",
            List.zipWith (· + ·)
              (List.zipWith (· + ·)
                (List.zipWith (· + ·)
                  (List.zipWith (· + ·) s.Emissions.co2_fossil
                    s.Emissions.co2_land) storage) reemission) justified),
          ("justified",
            List.zipWith (· + ·)
              (List.zipWith (· + ·) s.Emissions.co2_fossil
                s.Emissions.co2_land) justified)],
         fair_results) := by
  have hcomm : List.zipWith (· + ·) s.Emissions.co2_land
      s.Emissions.co2_fossil =
      List.zipWith (· + ·) s.Emissions.co2_fossil s.Emissions.co2_land :=
    List.zipWith_comm_of_comm _ add_comm _ _
  set d := List.zipWith (· + ·) s.Emissions.co2_fossil s.Emissions.co2_land
    with hd
  have hdl : d.length = s.Emissions.co2_fossil.length := by
    rw [hd, List.length_zipWith, ← hf, min_self]
  have h1 : npAdd s.Emissions.co2_land s.Emissions.co2_fossil = .ok d := by
    rw [npAdd_eq hf, hcomm]
  have h2 : npAdd d storage = .ok (List.zipWith (· + ·) d storage) :=
    npAdd_eq (by rw [hdl, hs])
  have hdsl : (List.zipWith (· + ·) d storage).length =
      s.Emissions.co2_fossil.length := by
    rw [List.length_zipWith, hdl, hs, min_self]
  have h3 : npAdd (List.zipWith (· + ·) d storage) reemission =
      .ok (List.zipWith (· + ·) (List.zipWith (· + ·) d storage)
        reemission) :=
    npAdd_eq (by rw [hdsl, hre])
  have hdsrl : (List.zipWith (· + ·) (List.zipWith (· + ·) d storage)
      reemission).length = s.Emissions.co2_fossil.length := by
    rw [List.length_zipWith, hdsl, hre, min_self]
  have h4 : npAdd (List.zipWith (· + ·) (List.zipWith (· + ·) d storage)
      reemission) justified =
      .ok (List.zipWith (· + ·)
        (List.zipWith (· + ·) (List.zipWith (· + ·) d storage) reemission)
        justified) :=
    npAdd_eq (by rw [hdsrl, hj])
  have h5 : npAdd d justified = .ok (List.zipWith (· + ·) d justified) :=
    npAdd_eq (by rw [hdl, hj])
  refine ⟨(([("default", d),
      ("permanent", List.zipWith (· + ·) d storage),
      ("temporary",
        List.zipWith (· + ·) (List.zipWith (· + ·) d storage) reemission),
      ("offset",
        List.zipWith (· + ·)
          (List.zipWith (· + ·) (List.zipWith (· + ·) d storage) reemission)
          justified),
      ("justified", List.zipWith (· + ·) d justified)] :
      List (String × List ℚ)).map
        (fun p => (p.1, sim p.2 (List.replicate p.2.length 0)))), ?_⟩
  unfold run_fair run_fair_st
  simp only [h1, okBind, h2, h3, h4, h5, mapOk]

/-- Witness for C2: `wScen` with the perturbations `wSt`, `wRe`,
`wJu`. -/
theorem run_fair_scenario_composition_witness :
    ∃ fair_results,
      run_fair wSim wScen wSt wRe wJu = .ok
        ([("default",
            List.zipWith (· + ·) wScen.Emissions.co2_fossil
              wScen.Emissions.co2_land),
          ("permanent",
            List.zipWith (· + ·)
              (List.zipWith (· + ·) wScen.Emissions.co2_fossil
                wScen.Emissions.co2_land) wSt),
          ("temporary",
            List.zipWith (· + ·)
              (List.zipWith (· + ·)
                (List.zipWith (· + ·) wScen.Emissions.co2_fossil
                  wScen.Emissions.co2_land) wSt) wRe),
          ("offset",
            List.zipWith (· + ·)
              (List.zipWith (· + ·)
                (List.zipWith (· + ·)
                  (List.zipWith (· + ·) wScen.Emissions.co2_fossil
                    wScen.Emissions.co2_land) wSt) wRe) wJu),
          ("justified",
            List.zipWith (· + ·)
              (List.zipWith (· + ·) wScen.Emissions.co2_fossil
                wScen.Emissions.co2_land) wJu)],
         fair_results) :=
  run_fair_scenario_composition wSim wScen wSt wRe wJu (by rfl) (by rfl)
    (by rfl) (by rfl)

/-- **C8.**  Whenever `run_fair` returns, both returned mappings carry
exactly the five keys `default`, `permanent`, `temporary`, `offset`,
`justified`, in this order — no fewer and no extras. -/
theorem run_fair_five_keys
    (sim : SimFn) (s : Scenario) (storage reemission justified : List ℚ)
    (es : List (String × List ℚ)) (fr : List (String × FairResult))
    (h : run_fair sim s storage reemission justified = .ok (es, fr)) :
    es.map Prod.fst =
      ["default", "permanent", "temporary", "offset", "justified"] ∧
    fr.map Prod.fst =
      ["default", "permanent", "temporary", "offset", "justified"] := by
  unfold run_fair at h
  cases hc : run_fair_st sim s storage reemission justified with
  | error e => rw [hc, mapErr] at h; exact absurd h (by simp)
  | ok v =>
    rw [hc, mapOk] at h
    unfold run_fair_st at hc
    obtain ⟨d, hd, hc⟩ := bind_ok_ex hc
    obtain ⟨p, hp, hc⟩ := bind_ok_ex hc
    obtain ⟨t1, ht1, hc⟩ := bind_ok_ex hc
    obtain ⟨t, ht, hc⟩ := bind_ok_ex hc
    obtain ⟨o1, ho1, hc⟩ := bind_ok_ex hc
    obtain ⟨o2, ho2, hc⟩ := bind_ok_ex hc
    obtain ⟨o, ho, hc⟩ := bind_ok_ex hc
    obtain ⟨jn, hjn, hc⟩ := bind_ok_ex hc
    have hv := Except.ok.inj hc
    rw [← hv] at h
    have h2 := Except.ok.inj h
    rw [Prod.mk.injEq] at h2
    obtain ⟨h2a, h2b⟩ := h2
    subst h2a
    subst h2b
    constructor <;> simp

/-- Evaluation helper: the perturbations of `wScen` at year 2000,
length 1, magnitude 1, ratio 1. -/
theorem get_perturbations_w_eval :
    get_perturbations wScen 2000 1 1 1 = .ok (wSt, wRe, wJu) := by
  norm_num [get_perturbations, get_perturbations_st, npWhereEq, firstIndex,
    npIAdd, npNormIdx, pyDiv, wScen, wSt, wRe, wJu, List.range_succ,
    List.replicate_succ, List.set_cons_zero, List.set_cons_succ]

/-- Evaluation helper: `run_fair` on `wScen` with `wSt`, `wRe`, `wJu`
under the simulator `wSim`. -/
theorem run_fair_w_eval :
    run_fair wSim wScen wSt wRe wJu = .ok (wEs, wFr) := by
  norm_num [run_fair, run_fair_st, npAdd, wScen, wSim, wSt, wRe, wJu, wEs,
    wFr, wRd, wRo, List.replicate_succ]

/-- Witness for C8: the concrete call on `wScen`. -/
theorem run_fair_five_keys_witness :
    wEs.map Prod.fst =
      ["default", "permanent", "temporary", "offset", "justified"] ∧
    wFr.map Prod.fst =
      ["default", "permanent", "temporary", "offset", "justified"] :=
  run_fair_five_keys wSim wScen wSt wRe wJu wEs wFr run_fair_w_eval

/-- **C3.**  For every valid input (`temp_yr` found at index `i`, the
rebuilt perturbations and the rerun of the simulator both succeeding),
`compare_rf` returns
`sum(default_rf[i : i + time_horizon]) - sum(offset_rf[i : i + time_horizon])`
over the radiative-forcing series of the rebuilt run; and when
`i + time_horizon` reaches past the series length the summation window
silently truncates at the array end (it is the whole tail) rather than
raising. -/
theorem compare_rf_forcing_window
    (sim : SimFn) (r : ℚ) (s : Scenario) (temp_yr temp_length : ℤ)
    (m : ℚ) (th : ℤ) (i : ℕ) (rest : List ℕ) (st re ju : List ℚ)
    (es : List (String × List ℚ)) (fr : List (String × FairResult))
    (rd ro : FairResult)
    (hp : get_perturbations s temp_yr temp_length m r = .ok (st, re, ju))
    (hrf : run_fair sim s st re ju = .ok (es, fr))
    (hi : npWhereEq s.Emissions.year temp_yr = i :: rest)
    (hd : dictGet fr "default" = .ok rd)
    (ho : dictGet fr "offset" = .ok ro) :
    compare_rf sim r s temp_yr temp_length m th =
      .ok ((pySlice rd.rf (i : ℤ) ((i : ℤ) + th)).sum -
        (pySlice ro.rf (i : ℤ) ((i : ℤ) + th)).sum) ∧
    ((rd.rf.length : ℤ) ≤ (i : ℤ) + th →
      pySlice rd.rf (i : ℤ) ((i : ℤ) + th) = rd.rf.drop i) := by
  constructor
  · unfold compare_rf firstIndex
    rw [hi]
    simp only [hp, okBind, hrf, hd, ho]
  · intro htrunc
    unfold pySlice pySliceNorm
    rw [if_neg (by omega), if_neg (by omega)]
    have h1 : min ((i : ℤ) + th).toNat rd.rf.length = rd.rf.length := by
      omega
    have h2 : ((i : ℤ)).toNat = i := by omega
    rw [h1, h2, List.take_length]
    by_cases hin : i ≤ rd.rf.length
    · rw [min_eq_left hin]
    · push_neg at hin
      rw [min_eq_right (le_of_lt hin), List.drop_length,
        List.drop_eq_nil_of_le (le_of_lt hin)]

/-- Witness for C3: the concrete call at ratio 1 on `wScen` with time
horizon 2. -/
theorem compare_rf_forcing_window_witness :
    compare_rf wSim 1 wScen 2000 1 1 2 =
      .ok ((pySlice wRd.rf ((0 : ℕ) : ℤ) (((0 : ℕ) : ℤ) + 2)).sum -
        (pySlice wRo.rf ((0 : ℕ) : ℤ) (((0 : ℕ) : ℤ) + 2)).sum) ∧
    ((wRd.rf.length : ℤ) ≤ ((0 : ℕ) : ℤ) + 2 →
      pySlice wRd.rf ((0 : ℕ) : ℤ) (((0 : ℕ) : ℤ) + 2) = wRd.rf.drop 0) :=
  compare_rf_forcing_window wSim 1 wScen 2000 1 1 2 0 [] wSt wRe wJu wEs
    wFr wRd wRo get_perturbations_w_eval run_fair_w_eval (by rfl) (by rfl)
    (by rfl)

/-- Evaluation helper: `compare_rf` on `wScen` under `wSim` at the
bracket endpoint 1. -/
theorem compare_rf_w_at_one :
    compare_rf wSim 1 wScen 2000 1 1 2 = .ok (-1) := by
  have hd : dictGet wFr "default" = .ok wRd := by rfl
  have ho : dictGet wFr "offset" = .ok wRo := by rfl
  unfold compare_rf firstIndex
  rw [show npWhereEq wScen.Emissions.year 2000 = [0] from by rfl]
  rw [get_perturbations_w_eval]
  simp only [okBind, run_fair_w_eval, hd, ho]
  rw [pySlice, pySlice]
  norm_num [pySliceNorm, wRd, wRo]
  rw [show List.take (Int.toNat 2) ([1, 1, 1] : List ℚ) = [1, 1] from rfl,
    show List.take (Int.toNat 2) ([1, 2, 1] : List ℚ) = [1, 2] from rfl]
  norm_num [List.sum_cons, List.sum_nil]

/-- Evaluation helper: `compare_rf` on `wScen` under `wSim` at the
bracket endpoint 1000. -/
theorem compare_rf_w_at_thousand :
    compare_rf wSim 1000 wScen 2000 1 1 2 = .ok (-1/1000) := by
  have hp : get_perturbations wScen 2000 1 1 1000 =
      .ok (wSt, wRe, [1/1000, 0, 0]) := by
    norm_num [get_perturbations, get_perturbations_st, npWhereEq,
      firstIndex, npIAdd, npNormIdx, pyDiv, wScen, wSt, wRe,
      List.range_succ, List.replicate_succ, List.set_cons_zero,
      List.set_cons_succ]
  have hrf : run_fair wSim wScen wSt wRe [1/1000, 0, 0] = .ok
      ([("default", [1, 1, 1]), ("permanent", [0, 1, 1]),
        ("temporary", [0, 2, 1]), ("offset", [1/1000, 2, 1]),
        ("justified", [1 + 1/1000, 1, 1])],
       [("default", wRd),
        ("permanent", ⟨[0, 1, 1], [0, 1, 1], [0, 1, 1]⟩),
        ("temporary", ⟨[0, 2, 1], [0, 2, 1], [0, 2, 1]⟩),
        ("offset", ⟨[1/1000, 2, 1], [1/1000, 2, 1], [1/1000, 2, 1]⟩),
        ("justified", ⟨[1 + 1/1000, 1, 1], [1 + 1/1000, 1, 1],
          [1 + 1/1000, 1, 1]⟩)]) := by
    norm_num [run_fair, run_fair_st, npAdd, wScen, wSim, wSt, wRe, wRd,
      List.replicate_succ]
  have hd : dictGet
      ([("default", wRd),
        ("permanent", (⟨[0, 1, 1], [0, 1, 1], [0, 1, 1]⟩ : FairResult)),
        ("temporary", ⟨[0, 2, 1], [0, 2, 1], [0, 2, 1]⟩),
        ("offset", ⟨[1/1000, 2, 1], [1/1000, 2, 1], [1/1000, 2, 1]⟩),
        ("justified", ⟨[1 + 1/1000, 1, 1], [1 + 1/1000, 1, 1],
          [1 + 1/1000, 1, 1]⟩)]) "default" = .ok wRd := by rfl
  have ho : dictGet
      ([("default", wRd),
        ("permanent", (⟨[0, 1, 1], [0, 1, 1], [0, 1, 1]⟩ : FairResult)),
        ("temporary", ⟨[0, 2, 1], [0, 2, 1], [0, 2, 1]⟩),
        ("offset", ⟨[1/1000, 2, 1], [1/1000, 2, 1], [1/1000, 2, 1]⟩),
        ("justified", ⟨[1 + 1/1000, 1, 1], [1 + 1/1000, 1, 1],
          [1 + 1/1000, 1, 1]⟩)]) "offset" =
      .ok ⟨[1/1000, 2, 1], [1/1000, 2, 1], [1/1000, 2, 1]⟩ := by rfl
  unfold compare_rf firstIndex
  rw [show npWhereEq wScen.Emissions.year 2000 = [0] from by rfl]
  rw [hp]
  simp only [okBind, hrf, hd, ho]
  rw [pySlice, pySlice]
  norm_num [pySliceNorm, wRd]
  rw [show List.take (Int.toNat 2) ([1, 1, 1] : List ℚ) = [1, 1] from rfl,
    show List.take (Int.toNat 2) ([1/1000, 2, 1] : List ℚ) = [1/1000, 2]
      from rfl]
  norm_num [List.sum_cons, List.sum_nil]

/-- **C4.**  Whenever the forcing comparator evaluates with the same
strict sign at both bracket endpoints 1 and 1000 (positive product),
`get_equivalence_ratio` fails with the `BracketError` condition raised
by the root-finder; it does not return a boundary value. -/
theorem get_equivalence_ratio_bracket
    (sim : SimFn) (s : Scenario) (temp_yr temp_length : ℤ) (m : ℚ)
    (th : ℤ) (v1 v2 : ℚ)
    (h1 : compare_rf sim 1 s temp_yr temp_length m th = .ok v1)
    (h2 : compare_rf sim 1000 s temp_yr temp_length m th = .ok v2)
    (hs : 0 < v1 * v2) :
    get_equivalence_ratio sim s temp_yr temp_length m th =
      .error .bracketError := by
  unfold get_equivalence_ratio bisect
  simp only [h1, h2, okBind]
  rw [if_pos hs]

/-- Witness for C4: on `wScen` under `wSim` the comparator is negative
at both endpoints (`-1` and `-1/1000`), and the solver raises the
bracket condition. -/
theorem get_equivalence_ratio_bracket_witness :
    get_equivalence_ratio wSim wScen 2000 1 1 2 = .error .bracketError :=
  get_equivalence_ratio_bracket wSim wScen 2000 1 1 2 (-1) (-1/1000)
    compare_rf_w_at_one compare_rf_w_at_thousand (by norm_num)

/-- **C9.**  Neither `get_perturbations` nor `run_fair` modifies the
caller's inputs: whenever the state-passing embeddings return, the
threaded scenario (and, for `run_fair`, the three perturbation arrays)
are unchanged — element-for-element the same values that were passed
in. -/
theorem core_preserves_inputs :
    (∀ (s : Scenario) (temp_yr temp_length : ℤ) (m r : ℚ) (s' : Scenario)
        (out : List ℚ × List ℚ × List ℚ),
      get_perturbations_st s temp_yr temp_length m r = .ok (s', out) →
        s' = s) ∧
    (∀ (sim : SimFn) (s : Scenario) (storage reemission justified : List ℚ)
        (s' : Scenario) (st' re' ju' : List ℚ)
        (res : List (String × List ℚ) × List (String × FairResult)),
      run_fair_st sim s storage reemission justified =
          .ok ((s', st', re', ju'), res) →
        s' = s ∧ st' = storage ∧ re' = reemission ∧ ju' = justified) := by
  constructor
  · intro s temp_yr temp_length m r s' out h
    unfold get_perturbations_st at h
    obtain ⟨i, hi, h⟩ := bind_ok_ex h
    obtain ⟨st, hst, h⟩ := bind_ok_ex h
    obtain ⟨re, hre, h⟩ := bind_ok_ex h
    obtain ⟨inv, hinv, h⟩ := bind_ok_ex h
    obtain ⟨ju, hju, h⟩ := bind_ok_ex h
    have hv := Except.ok.inj h
    rw [Prod.mk.injEq] at hv
    exact hv.1.symm
  · intro sim s storage reemission justified s' st' re' ju' res h
    unfold run_fair_st at h
    obtain ⟨d, hd, h⟩ := bind_ok_ex h
    obtain ⟨p, hp, h⟩ := bind_ok_ex h
    obtain ⟨t1, ht1, h⟩ := bind_ok_ex h
    obtain ⟨t, ht, h⟩ := bind_ok_ex h
    obtain ⟨o1, ho1, h⟩ := bind_ok_ex h
    obtain ⟨o2, ho2, h⟩ := bind_ok_ex h
    obtain ⟨o, ho, h⟩ := bind_ok_ex h
    obtain ⟨jn, hjn, h⟩ := bind_ok_ex h
    have hv := Except.ok.inj h
    simp only [Prod.mk.injEq] at hv
    obtain ⟨⟨hs', hst', hre', hju'⟩, _⟩ := hv
    exact ⟨hs'.symm, hst'.symm, hre'.symm, hju'.symm⟩

/-- Witness for C9: both frame statements instantiated on the concrete
call on `wScen` with `wSt`, `wRe`, `wJu`, discharging the success
hypotheses by evaluation. -/
theorem core_preserves_inputs_witness :
    wScen = wScen ∧
      (wScen = wScen ∧ wSt = wSt ∧ wRe = wRe ∧ wJu = wJu) :=
  ⟨core_preserves_inputs.1 wScen 2000 1 1 1 wScen (wSt, wRe, wJu)
    (by norm_num [get_perturbations_st, npWhereEq, firstIndex, npIAdd,
      npNormIdx, pyDiv, wScen, wSt, wRe, wJu, List.range_succ,
      List.replicate_succ, List.set_cons_zero, List.set_cons_succ]),
   core_preserves_inputs.2 wSim wScen wSt wRe wJu wScen wSt wRe wJu
    (wEs, wFr)
    (by norm_num [run_fair_st, npAdd, wScen, wSim, wSt, wRe, wJu, wEs,
      wFr, wRd, wRo, List.replicate_succ])⟩

end FairEquivalence
